import Mathlib

set_option maxHeartbeats 1000000

/-!
Shallow embedding of `components/audio_stream/http_stream.c`.

The transport library (`esp_http_client`) and the pipeline framework
(`audio_element`) are external collaborators.  Their behaviour at the
interface is supplied by an explicit environment record `Env` (results of
transport calls, response headers delivered during a header fetch), and
every call the element makes into the transport is recorded in an effect
trace, so that resource handling (close / cleanup of the client handle),
range-header emission and the status-code query are observable.

Machine integers are modelled as `Int`: the C code performs no arithmetic
on them in the modelled paths other than `byte_pos += rlen`, which cannot
overflow an `int64_t` in any run the claims quantify over, so no modular
reduction is needed.
-/

/-- Return type of ESP-IDF style APIs (`esp_err_t` in the C source). -/
abbrev esp_err_t := Int

/-- Success code `ESP_OK` (0). -/
def ESP_OK : esp_err_t := 0

/-- Generic failure code `ESP_FAIL` (-1). -/
def ESP_FAIL : esp_err_t := -1

/-- Out-of-memory code `ESP_ERR_NO_MEM` (0x101). -/
def ESP_ERR_NO_MEM : esp_err_t := 257

/-- ASCII case folding of one character code, as C `tolower` does in the
POSIX locale: map the codes of A-Z (65-90) to a-z (97-122), leave every
other code unchanged. -/
def tolower_code (c : Char) : Nat :=
  if 65 ≤ c.toNat ∧ c.toNat ≤ 90 then c.toNat + 32 else c.toNat

/-- Model of C `strcasecmp`: result is 0 exactly when the two strings are
equal after per-character ASCII case folding.  The C function's nonzero
results carry a sign, but the source only ever tests the result for
zero / nonzero, so any caseless difference is modelled as 1. -/
def strcasecmp (a b : String) : Int :=
  if a.data.map tolower_code = b.data.map tolower_code then 0 else 1

/-- Codec tags (`audio_codec_t` in `audio_common.h`). -/
inductive audio_codec_t where
  | AUDIO_CODEC_NONE
  | AUDIO_CODEC_MP3
  | AUDIO_CODEC_AAC
  | AUDIO_CODEC_WAV
  | AUDIO_CODEC_OPUS
  deriving DecidableEq, Repr

export audio_codec_t (AUDIO_CODEC_NONE AUDIO_CODEC_MP3 AUDIO_CODEC_AAC AUDIO_CODEC_WAV AUDIO_CODEC_OPUS)

/-- Direct transcription of `get_audio_type` (http_stream.c lines 56-74).
Note the C code writes `if (strcasecmp(content_type, "audio/mp3"))`, i.e. it
branches on the comparison result being NONZERO (the strings differing),
which is transcribed faithfully here as a `≠ 0` test. -/
def get_audio_type (content_type : String) : audio_codec_t :=
  if strcasecmp content_type "audio/mp3" ≠ 0 then
    AUDIO_CODEC_MP3
  else if strcasecmp content_type "audio/mpeg" ≠ 0 then
    AUDIO_CODEC_MP3
  else if strcasecmp content_type "audio/aac" ≠ 0 then
    AUDIO_CODEC_AAC
  else if strcasecmp content_type "audio/wav" ≠ 0 then
    AUDIO_CODEC_WAV
  else if strcasecmp content_type "audio/opus" ≠ 0 then
    AUDIO_CODEC_OPUS
  else
    AUDIO_CODEC_NONE

/-- Stream role (`audio_stream_type_t`). -/
inductive audio_stream_type_t where
  | AUDIO_STREAM_NONE
  | AUDIO_STREAM_READER
  | AUDIO_STREAM_WRITER
  deriving DecidableEq, Repr

/-- Externally visible element states (`audio_element_state_t`); the C source
only ever compares against `AEL_STATE_PAUSED`. -/
inductive ael_state_t where
  | AEL_STATE_INIT
  | AEL_STATE_RUNNING
  | AEL_STATE_PAUSED
  | AEL_STATE_STOPPED
  | AEL_STATE_FINISHED
  | AEL_STATE_ERROR
  deriving DecidableEq, Repr

/-- The fields of `audio_element_info_t` that http_stream.c touches. -/
structure audio_element_info_t where
  byte_pos : Int
  total_bytes : Int
  codec_fmt : audio_codec_t
  deriving DecidableEq, Repr

/-- Hook event ids (`http_stream_event_id_t`). -/
inductive http_stream_event_id_t where
  | HTTP_STREAM_PRE_REQUEST
  | HTTP_STREAM_ON_REQUEST
  | HTTP_STREAM_ON_RESPONSE
  | HTTP_STREAM_POST_REQUEST
  | HTTP_STREAM_FINISH_REQUEST
  deriving DecidableEq, Repr

/-- The observable part of `http_stream_event_msg_t` handed to the hook: the
event id and the buffer length.  The raw client handle, user-data pointer and
buffer pointer are opaque to the hook's modelled decision, which is its
integer return value. -/
structure http_stream_event_msg_t where
  event_id : http_stream_event_id_t
  buffer_len : Int

/-- The persistent per-element record (`http_stream_t`).  The `client` field
is the transport handle last stored by `esp_http_client_init` (`none` models
the NULL handle of a freshly calloc-ed element). -/
structure http_stream_t where
  stream_type : audio_stream_type_t
  is_open : Bool
  client : Option Nat
  hook : Option (http_stream_event_msg_t → Int)

/-- The element-level state the C file reaches through the `audio_element`
accessors: the URI, the shared info record, and the externally visible
element state. -/
structure audio_element_t where
  uri : Option String
  info : audio_element_info_t
  state : ael_state_t

/-- HTTP client event ids relevant to `_http_event_handle`; everything other
than `HTTP_EVENT_ON_HEADER` is ignored by the handler. -/
inductive http_client_event_id_t where
  | HTTP_EVENT_ON_HEADER
  | HTTP_EVENT_OTHER
  deriving DecidableEq, Repr

/-- The part of `esp_http_client_event_t` the handler reads. -/
structure esp_http_client_event_t where
  event_id : http_client_event_id_t
  header_key : String
  header_value : String
  deriving DecidableEq, Repr

/-- Transcription of `_http_event_handle` (lines 76-90): it mutates the
`audio_element_info_t` that the open call registered as `user_data`, and
returns `ESP_OK`. -/
def _http_event_handle (info : audio_element_info_t) (evt : esp_http_client_event_t) :
    audio_element_info_t × esp_err_t :=
  if evt.event_id ≠ http_client_event_id_t.HTTP_EVENT_ON_HEADER then
    (info, ESP_OK)
  else if strcasecmp evt.header_key "Content-Disposition" = 0 ∨
          strcasecmp evt.header_key "Content-Type" = 0 then
    ({ info with codec_fmt := get_audio_type evt.header_value }, ESP_OK)
  else
    (info, ESP_OK)

/-- The sequence of handler invocations performed by the transport while
`esp_http_client_fetch_headers` runs: each delivered event is fed to
`_http_event_handle` against the info record registered at init time. -/
def process_http_events (info : audio_element_info_t)
    (evts : List esp_http_client_event_t) : audio_element_info_t :=
  evts.foldl (fun i e => (_http_event_handle i e).fst) info

/-- Environment: the behaviour of the transport library during one call into
the element.  `http_events` are the events the transport delivers to the
registered event handler while headers are fetched. -/
structure Env where
  init_handle : Option Nat
  post_len : Int
  post_buffer : Bool
  open_err : esp_err_t
  write_ret : Int
  fetch_headers_ret : Int
  http_events : List esp_http_client_event_t
  status_code : Int
  read_ret : Int

/-- Observable calls the element makes into the transport / framework. -/
inductive Eff where
  | client_init
  | set_range_header (pos : Int)
  | client_open (len : Int)
  | client_write (len : Int)
  | client_read (len : Int)
  | client_fetch_headers
  | get_status (code : Int)
  | client_close
  | client_cleanup
  | setinfo
  | report_codec_fmt
  deriving DecidableEq, Repr

/-- Transcription of `dispatch_hook` (lines 92-104): build the event message
and invoke the registered hook; with no hook registered return `ESP_OK`. -/
def dispatch_hook (http : http_stream_t) (ty : http_stream_event_id_t)
    (buffer_len : Int) : Int :=
  match http.hook with
  | some h => h { event_id := ty, buffer_len := buffer_len }
  | none => ESP_OK

/-- Result of `_http_open`: the returned `esp_err_t`, the element record and
element state after the call, and the trace of transport calls made. -/
structure OpenResult where
  ret : esp_err_t
  http : http_stream_t
  el : audio_element_t
  trace : List Eff

/-- Tail of `_http_open` after the request body step (lines 174-188):
dispatch `HTTP_STREAM_POST_REQUEST` (its result is passed in by the caller,
which dispatches on the element record whose hook field is never mutated; a
negative result closes the client and fails), fetch the response headers
(delivering header events into the local info record and storing the
returned length in `total_bytes`), query the status code (log-only: the
failure return is commented out in the source), mark the element open,
publish the info record and report the codec. -/
def _http_open_finish (env : Env) (post_hook_ret : Int) (http : http_stream_t)
    (el : audio_element_t) (info : audio_element_info_t) (tr : List Eff) : OpenResult :=
  if post_hook_ret < 0 then
    ⟨ESP_FAIL, http, el, tr ++ [Eff.client_close]⟩
  else
    let info1 := process_http_events info env.http_events
    let info2 := { info1 with total_bytes := env.fetch_headers_ret }
    -- `if (esp_http_client_get_status_code(...) != 200)` only logs: the
    -- `return ESP_FAIL` on the non-200 branch is commented out in the source.
    ⟨ESP_OK, { http with is_open := true }, { el with info := info2 },
      tr ++ [Eff.client_fetch_headers, Eff.get_status env.status_code,
             Eff.setinfo, Eff.report_codec_fmt]⟩

/-- Transcription of `_http_open` (lines 106-189). -/
def _http_open (env : Env) (http : http_stream_t) (el : audio_element_t) : OpenResult :=
  let info := el.info
  match el.uri with
  | none => ⟨ESP_FAIL, http, el, []⟩
  | some _ =>
    if http.is_open then
      ⟨ESP_FAIL, http, el, []⟩
    else
      match env.init_handle with
      | none => ⟨ESP_ERR_NO_MEM, { http with client := none }, el, [Eff.client_init]⟩
      | some h =>
        -- The hook dispatches below read only the hook field, which the
        -- client-handle assignment above does not change, so they are made
        -- on the same element record the C code passes (`http`).
        let http1 := { http with client := some h }
        let tr1 := if info.byte_pos ≠ 0 then
            [Eff.client_init, Eff.set_range_header info.byte_pos]
          else
            [Eff.client_init]
        if dispatch_hook http http_stream_event_id_t.HTTP_STREAM_PRE_REQUEST 0 ≠ ESP_OK then
          ⟨ESP_FAIL, http1, el, tr1⟩
        else if http.stream_type = audio_stream_type_t.AUDIO_STREAM_WRITER then
          let err := env.open_err
          if err = ESP_OK then
            ⟨err, { http1 with is_open := true }, el, tr1 ++ [Eff.client_open (-1)]⟩
          else
            ⟨err, http1, el, tr1 ++ [Eff.client_open (-1)]⟩
        else
          let post_len := env.post_len
          let tr2 := tr1 ++ [Eff.client_open post_len]
          if env.open_err ≠ ESP_OK then
            ⟨ESP_FAIL, http1, el, tr2⟩
          else
            let wrlen := dispatch_hook http http_stream_event_id_t.HTTP_STREAM_ON_REQUEST post_len
            if wrlen < 0 then
              ⟨ESP_FAIL, http1, el, tr2⟩
            else if post_len ≠ 0 ∧ env.post_buffer = true ∧ wrlen = 0 then
              if env.write_ret ≤ 0 then
                ⟨ESP_FAIL, http1, el, tr2 ++ [Eff.client_write post_len]⟩
              else
                _http_open_finish env
                  (dispatch_hook http http_stream_event_id_t.HTTP_STREAM_POST_REQUEST 0)
                  http1 el info (tr2 ++ [Eff.client_write post_len])
            else
              _http_open_finish env
                (dispatch_hook http http_stream_event_id_t.HTTP_STREAM_POST_REQUEST 0)
                http1 el info tr2

/-- Result of `_http_read`: the returned count, the element state after the
call and the trace of calls made. -/
structure ReadResult where
  ret : Int
  el : audio_element_t
  trace : List Eff

/-- Transcription of `_http_read` (lines 191-209). -/
def _http_read (env : Env) (http : http_stream_t) (el : audio_element_t)
    (len : Int) : ReadResult :=
  let info := el.info
  let wrlen := dispatch_hook http http_stream_event_id_t.HTTP_STREAM_ON_RESPONSE len
  let rlen := if wrlen = 0 then env.read_ret else wrlen
  let tr : List Eff := if wrlen = 0 then [Eff.client_read len] else []
  if rlen ≤ 0 then
    ⟨rlen, el, tr⟩
  else
    ⟨rlen, { el with info := { info with byte_pos := info.byte_pos + rlen } },
      tr ++ [Eff.setinfo]⟩

/-- Result of `_http_close`. -/
structure CloseResult where
  ret : esp_err_t
  http : http_stream_t
  el : audio_element_t
  trace : List Eff

/-- Transcription of `_http_close` (lines 241-267).  The `while` loop runs
its body at most once because `is_open` is cleared on entry, so it is
unrolled.  The header events delivered by the writer-path
`esp_http_client_fetch_headers` go to the info record that `_http_open`
registered, which is dead by now; they do not reach the element's own info,
so they are not applied here.  The transport close and cleanup calls and the
byte-position reset happen unconditionally, whether or not the element was
open. -/
def _http_close (env : Env) (http : http_stream_t) (el : audio_element_t) : CloseResult :=
  let step : http_stream_t × List Eff :=
    if http.is_open then
      let http2 := { http with is_open := false }
      if http2.stream_type ≠ audio_stream_type_t.AUDIO_STREAM_WRITER then
        (http2, [])
      else if dispatch_hook http2 http_stream_event_id_t.HTTP_STREAM_POST_REQUEST 0 < 0 then
        (http2, [])
      else if dispatch_hook http2 http_stream_event_id_t.HTTP_STREAM_FINISH_REQUEST 0 < 0 then
        (http2, [Eff.client_fetch_headers])
      else
        (http2, [Eff.client_fetch_headers])
    else
      (http, [])
  let http1 := step.fst
  let tr := step.snd ++ [Eff.client_close, Eff.client_cleanup]
  if el.state ≠ ael_state_t.AEL_STATE_PAUSED then
    ⟨ESP_OK, http1, { el with info := { el.info with byte_pos := 0 } },
      tr ++ [Eff.setinfo]⟩
  else
    ⟨ESP_OK, http1, el, tr⟩

/-! ### Helper lemmas about the content-type sniffer -/

/-- Zero result of the modelled `strcasecmp` characterises caseless equality. -/
theorem strcasecmp_eq_zero_iff (a b : String) :
    strcasecmp a b = 0 ↔ a.data.map tolower_code = b.data.map tolower_code := by
  unfold strcasecmp
  split
  · simp [*]
  · simp [*]

/-- The transcription of `get_audio_type` classifies every header value as
MP3: the C code branches on `strcasecmp` being nonzero (the strings
differing), and no string is caselessly equal to both `audio/mp3` and
`audio/mpeg`, so one of the first two branches is always taken. -/
theorem get_audio_type_eq_mp3 (s : String) : get_audio_type s = AUDIO_CODEC_MP3 := by
  unfold get_audio_type
  by_cases h : strcasecmp s "audio/mp3" = 0
  · have hl := (strcasecmp_eq_zero_iff s "audio/mp3").mp h
    have h2 : strcasecmp s "audio/mpeg" ≠ 0 := by
      rw [Ne, strcasecmp_eq_zero_iff, hl]
      decide
    simp [h, h2]
  · simp [h]

/-- A header event whose name matches `Content-Disposition` or
`Content-Type` overwrites `codec_fmt` with the classification of its value. -/
theorem http_event_handle_sets_codec (i : audio_element_info_t)
    (e : esp_http_client_event_t)
    (hev : e.event_id = http_client_event_id_t.HTTP_EVENT_ON_HEADER)
    (hkey : strcasecmp e.header_key "Content-Disposition" = 0 ∨
            strcasecmp e.header_key "Content-Type" = 0) :
    (_http_event_handle i e).fst.codec_fmt = get_audio_type e.header_value := by
  unfold _http_event_handle
  simp [hev, hkey]

/-- Processing any sequence of header events preserves an MP3 codec tag:
every event either leaves `codec_fmt` alone or overwrites it with a
`get_audio_type` result, which is always MP3. -/
theorem process_http_events_preserves_mp3 (evts : List esp_http_client_event_t) :
    ∀ i : audio_element_info_t, i.codec_fmt = AUDIO_CODEC_MP3 →
      (process_http_events i evts).codec_fmt = AUDIO_CODEC_MP3 := by
  induction evts with
  | nil => intro i h; exact h
  | cons e rest ih =>
    intro i h
    unfold process_http_events at ih ⊢
    simp only [List.foldl_cons]
    apply ih
    unfold _http_event_handle
    split
    · exact h
    · split
      · simp [get_audio_type_eq_mp3]
      · exact h

/-! ### Claims -/

/-- C1: the claim says classification is by case-insensitive substring
containment in priority order (audio/mp3 or audio/mpeg to MP3, audio/aac to
AAC, audio/wav to WAV, audio/opus to OPUS, otherwise NONE).  The code
instead branches on `strcasecmp` being nonzero, i.e. on the value DIFFERING
from the marker, so every value — including `audio/aac`, `audio/wav`,
`audio/opus`, values with trailing parameters, and values containing no
marker at all — classifies as MP3.  This theorem evaluates the transcribed
code at the failing inputs. -/
theorem c1_get_audio_type_classifies_everything_mp3 :
    get_audio_type "audio/aac" = AUDIO_CODEC_MP3 ∧
    get_audio_type "audio/wav" = AUDIO_CODEC_MP3 ∧
    get_audio_type "audio/opus" = AUDIO_CODEC_MP3 ∧
    get_audio_type "text/html" = AUDIO_CODEC_MP3 ∧
    get_audio_type "AUDIO/MPEG; charset=utf-8" = AUDIO_CODEC_MP3 := by
  decide

/-- C3: during one open cycle, once an observed header has produced a
non-NONE codec classification, processing later headers never changes
`codec_fmt`; the header that produced it determines the final value.  The
property holds in the code (degenerately so: every matching header
classifies as MP3, hence later matching headers rewrite the same value). -/
theorem c3_first_non_none_header_determines_codec
    (info : audio_element_info_t) (pre post : List esp_http_client_event_t)
    (e : esp_http_client_event_t)
    (hev : e.event_id = http_client_event_id_t.HTTP_EVENT_ON_HEADER)
    (hkey : strcasecmp e.header_key "Content-Disposition" = 0 ∨
            strcasecmp e.header_key "Content-Type" = 0)
    (hnz : get_audio_type e.header_value ≠ AUDIO_CODEC_NONE) :
    (process_http_events info (pre ++ e :: post)).codec_fmt =
      (process_http_events info (pre ++ [e])).codec_fmt ∧
    (process_http_events info (pre ++ e :: post)).codec_fmt =
      get_audio_type e.header_value := by
  have hsplit : process_http_events info (pre ++ e :: post) =
      process_http_events ((_http_event_handle (process_http_events info pre) e).fst) post := by
    unfold process_http_events
    rw [List.foldl_append, List.foldl_cons]
  have hone : process_http_events info (pre ++ [e]) =
      (_http_event_handle (process_http_events info pre) e).fst := by
    unfold process_http_events
    rw [List.foldl_append, List.foldl_cons, List.foldl_nil]
  have hbase : (_http_event_handle (process_http_events info pre) e).fst.codec_fmt =
      AUDIO_CODEC_MP3 := by
    rw [http_event_handle_sets_codec _ e hev hkey, get_audio_type_eq_mp3]
  constructor
  · rw [hsplit, hone, process_http_events_preserves_mp3 post _ hbase, hbase]
  · rw [hsplit, process_http_events_preserves_mp3 post _ hbase, get_audio_type_eq_mp3]

/-- Concrete info record for the C3 witness. -/
def infoW : audio_element_info_t :=
  { byte_pos := 0, total_bytes := 0, codec_fmt := AUDIO_CODEC_NONE }

/-- Concrete matching header event for the C3 witness. -/
def eW : esp_http_client_event_t :=
  { event_id := http_client_event_id_t.HTTP_EVENT_ON_HEADER,
    header_key := "Content-Type", header_value := "audio/mpeg" }

/-- Concrete non-matching header preceding `eW` in the C3 witness. -/
def preW : List esp_http_client_event_t :=
  [{ event_id := http_client_event_id_t.HTTP_EVENT_ON_HEADER,
     header_key := "Date", header_value := "today" }]

/-- Concrete later header following `eW` in the C3 witness. -/
def postW : List esp_http_client_event_t :=
  [{ event_id := http_client_event_id_t.HTTP_EVENT_ON_HEADER,
     header_key := "Content-Disposition", header_value := "audio/aac" }]

/-- Witness for C3 at a concrete header sequence. -/
theorem c3_witness :
    (process_http_events infoW (preW ++ eW :: postW)).codec_fmt =
      (process_http_events infoW (preW ++ [eW])).codec_fmt ∧
    (process_http_events infoW (preW ++ eW :: postW)).codec_fmt =
      get_audio_type eW.header_value :=
  c3_first_non_none_header_determines_codec infoW preW postW eW (by decide)
    (by decide) (by decide)

/-! ### Concrete states used by counterexamples and witnesses -/

/-- A hook that returns -1 for every event. -/
def hookNeg : http_stream_event_msg_t → Int := fun _ => -1

/-- A hook that returns +1 for every event. -/
def hookPos : http_stream_event_msg_t → Int := fun _ => 1

/-- A transport environment in which every call succeeds: init yields handle
1, there is no pending post body, open succeeds, writes and reads make
progress, the header fetch reports 100 bytes and delivers one
`Content-Type: audio/mpeg` header, and the status is 200. -/
def envNeutral : Env :=
  { init_handle := some 1, post_len := 0, post_buffer := false,
    open_err := ESP_OK, write_ret := 1, fetch_headers_ret := 100,
    http_events := [{ event_id := http_client_event_id_t.HTTP_EVENT_ON_HEADER,
                      header_key := "Content-Type", header_value := "audio/mpeg" }],
    status_code := 200, read_ret := 7 }

/-- A closed reader element with no hook. -/
def httpReaderNoHook : http_stream_t :=
  { stream_type := audio_stream_type_t.AUDIO_STREAM_READER, is_open := false,
    client := none, hook := none }

/-- A closed reader element whose hook always returns -1. -/
def httpReaderHookNeg : http_stream_t :=
  { stream_type := audio_stream_type_t.AUDIO_STREAM_READER, is_open := false,
    client := none, hook := some hookNeg }

/-- A closed reader element whose hook always returns +1. -/
def httpReaderHookPos : http_stream_t :=
  { stream_type := audio_stream_type_t.AUDIO_STREAM_READER, is_open := false,
    client := none, hook := some hookPos }

/-- An already-open reader element holding transport handle 1. -/
def httpOpenReader : http_stream_t :=
  { stream_type := audio_stream_type_t.AUDIO_STREAM_READER, is_open := true,
    client := some 1, hook := none }

/-- A not-open reader element holding a (stale) transport handle 1. -/
def httpClosedWithHandle : http_stream_t :=
  { stream_type := audio_stream_type_t.AUDIO_STREAM_READER, is_open := false,
    client := some 1, hook := none }

/-- A running element at byte position 0 with a URI set. -/
def elRun : audio_element_t :=
  { uri := some "http://example.com/a.mp3",
    info := { byte_pos := 0, total_bytes := 0, codec_fmt := AUDIO_CODEC_NONE },
    state := ael_state_t.AEL_STATE_RUNNING }

/-- A running element at byte position 5 with a URI set. -/
def elMid : audio_element_t :=
  { uri := some "http://example.com/a.mp3",
    info := { byte_pos := 5, total_bytes := 100, codec_fmt := AUDIO_CODEC_MP3 },
    state := ael_state_t.AEL_STATE_RUNNING }

/-- A stopped (not paused) element at byte position 5, as left behind by a
paused close followed by a stop: byte position preserved, element no longer
open. -/
def elStopped5 : audio_element_t :=
  { uri := some "http://example.com/a.mp3",
    info := { byte_pos := 5, total_bytes := 100, codec_fmt := AUDIO_CODEC_MP3 },
    state := ael_state_t.AEL_STATE_STOPPED }

/-! ### C2 -/

/-- C2 counterexample: with a reader whose `PreRequest` hook returns -1,
`open()` fails and `isOpen` stays false as the claim says, but the transport
handle created by this attempt is NOT released before returning: the trace
of this run is exactly `[client_init]` — the element neither closes nor
cleans up the client it just created, and the handle remains stored. -/
theorem c2_counterexample_negative_hook_leaves_transport :
    (_http_open envNeutral httpReaderHookNeg elRun).ret = ESP_FAIL ∧
    (_http_open envNeutral httpReaderHookNeg elRun).http.is_open = false ∧
    (_http_open envNeutral httpReaderHookNeg elRun).http.client = some 1 ∧
    (_http_open envNeutral httpReaderHookNeg elRun).trace = [Eff.client_init] := by
  decide

/-- C2 (amended): whenever the `PreRequest` hook (either role) or a
reader's `OnRequest` hook returns a negative value during `open()`, the
call returns failure and `isOpen` remains false, but the transport handle
created by this attempt is NOT released: no cleanup call is made, and the
handle remains stored in the element (it is only released by a later
`close()`). -/
theorem c2_negative_hook_abort_without_release (env : Env) (http : http_stream_t)
    (el : audio_element_t) (u : String) (hnd : Nat)
    (hu : el.uri = some u) (hopen : http.is_open = false)
    (hinit : env.init_handle = some hnd)
    (habort :
      dispatch_hook http http_stream_event_id_t.HTTP_STREAM_PRE_REQUEST 0 < 0 ∨
      (dispatch_hook http http_stream_event_id_t.HTTP_STREAM_PRE_REQUEST 0 = 0 ∧
       http.stream_type ≠ audio_stream_type_t.AUDIO_STREAM_WRITER ∧
       env.open_err = ESP_OK ∧
       dispatch_hook http http_stream_event_id_t.HTTP_STREAM_ON_REQUEST env.post_len < 0)) :
    (_http_open env http el).ret = ESP_FAIL ∧
    (_http_open env http el).http.is_open = false ∧
    (_http_open env http el).http.client = some hnd ∧
    Eff.client_close ∉ (_http_open env http el).trace ∧
    Eff.client_cleanup ∉ (_http_open env http el).trace := by
  unfold _http_open
  simp only [hu, hopen, hinit, ESP_OK]
  rw [if_neg (by simp [hopen])]
  rcases habort with hpre | ⟨hpre, hrole, herr, hreq⟩
  · rw [if_pos (by omega)]
    refine ⟨rfl, rfl, rfl, ?_, ?_⟩ <;>
      (by_cases hb : el.info.byte_pos ≠ 0 <;> simp [hb])
  · rw [if_neg (by simp [hpre])]
    rw [if_neg hrole]
    simp only [ESP_OK] at herr
    rw [if_neg (by simp [herr])]
    rw [if_pos hreq]
    refine ⟨rfl, rfl, rfl, ?_, ?_⟩ <;>
      (by_cases hb : el.info.byte_pos ≠ 0 <;> simp [hb])

/-- Witness for C2's amended theorem at the reader whose `OnRequest` hook
returns -1 (`PreRequest` also returns -1 and aborts first). -/
theorem c2_witness :
    (_http_open envNeutral httpReaderHookNeg elRun).ret = ESP_FAIL ∧
    (_http_open envNeutral httpReaderHookNeg elRun).http.is_open = false ∧
    (_http_open envNeutral httpReaderHookNeg elRun).http.client = some 1 ∧
    Eff.client_close ∉ (_http_open envNeutral httpReaderHookNeg elRun).trace ∧
    Eff.client_cleanup ∉ (_http_open envNeutral httpReaderHookNeg elRun).trace :=
  c2_negative_hook_abort_without_release envNeutral httpReaderHookNeg elRun
    "http://example.com/a.mp3" 1 rfl rfl rfl (Or.inl (by decide))

/-! ### C4 -/

/-- C4 counterexample: `close()` on an element that is NOT open is not a
no-op.  Starting from a not-open, not-paused element whose byte position is
5 (reachable: read 5 bytes, close while paused — which preserves the
position — then leave the paused state), `close()` resets `bytePos` to 0,
and it also invokes the transport close and cleanup calls on the stored
handle and republishes the info record. -/
theorem c4_counterexample_close_not_open_mutates :
    elStopped5.info.byte_pos = 5 ∧
    (_http_close envNeutral httpClosedWithHandle elStopped5).el.info.byte_pos = 0 ∧
    (_http_close envNeutral httpClosedWithHandle elStopped5).trace =
      [Eff.client_close, Eff.client_cleanup, Eff.setinfo] := by
  decide

/-- C4 (amended): `close()` on a not-open element returns success and skips
the writer finish sequence, leaving `isOpen`, `totalBytes`, `codecFormat`
and the stored handle value unchanged — but it is not a no-op: it still
invokes the transport close and cleanup calls on the stored handle, and it
resets `bytePos` to 0 unless the element state is paused (so an immediate
second `close()` after a completed one repeats the transport close/cleanup,
though it leaves `bytePos` with the value the first close left). -/
theorem c4_close_not_open_effects (env : Env) (http : http_stream_t)
    (el : audio_element_t) (ho : http.is_open = false) :
    (_http_close env http el).ret = ESP_OK ∧
    (_http_close env http el).http = http ∧
    (_http_close env http el).el.info.total_bytes = el.info.total_bytes ∧
    (_http_close env http el).el.info.codec_fmt = el.info.codec_fmt ∧
    (_http_close env http el).el.info.byte_pos =
      (if el.state = ael_state_t.AEL_STATE_PAUSED then el.info.byte_pos else 0) ∧
    (_http_close env http el).trace = [Eff.client_close, Eff.client_cleanup] ++
      (if el.state = ael_state_t.AEL_STATE_PAUSED then [] else [Eff.setinfo]) := by
  unfold _http_close
  simp only [ho, Bool.false_eq_true, if_false]
  by_cases hs : el.state = ael_state_t.AEL_STATE_PAUSED
  · simp [hs]
  · simp [hs]

/-- Witness for C4's amended theorem at a not-open, stopped element. -/
theorem c4_witness :
    (_http_close envNeutral httpClosedWithHandle elStopped5).ret = ESP_OK ∧
    (_http_close envNeutral httpClosedWithHandle elStopped5).http = httpClosedWithHandle ∧
    (_http_close envNeutral httpClosedWithHandle elStopped5).el.info.total_bytes =
      elStopped5.info.total_bytes ∧
    (_http_close envNeutral httpClosedWithHandle elStopped5).el.info.codec_fmt =
      elStopped5.info.codec_fmt ∧
    (_http_close envNeutral httpClosedWithHandle elStopped5).el.info.byte_pos =
      (if elStopped5.state = ael_state_t.AEL_STATE_PAUSED then elStopped5.info.byte_pos else 0) ∧
    (_http_close envNeutral httpClosedWithHandle elStopped5).trace =
      [Eff.client_close, Eff.client_cleanup] ++
      (if elStopped5.state = ael_state_t.AEL_STATE_PAUSED then [] else [Eff.setinfo]) :=
  c4_close_not_open_effects envNeutral httpClosedWithHandle elStopped5 rfl

/-! ### C5 -/

/-- C5 counterexample: the claim says a zero or positive `PreRequest` result
never by itself causes `open()` to fail inline, but the code aborts on any
result different from `ESP_OK`: with a hook returning +1 and a transport
environment in which every call succeeds, `open()` fails, and the trace
shows it aborted before the transport was even opened. -/
theorem c5_counterexample_positive_pre_request_fails :
    dispatch_hook httpReaderHookPos http_stream_event_id_t.HTTP_STREAM_PRE_REQUEST 0 = 1 ∧
    (_http_open envNeutral httpReaderHookPos elRun).ret = ESP_FAIL ∧
    (_http_open envNeutral httpReaderHookPos elRun).trace = [Eff.client_init] := by
  decide

/-- C5 (amended): `open()` is aborted at the `PreRequest` gate exactly when
the hook result is nonzero — any nonzero result, negative or positive,
makes `open()` fail before the transport is opened, while a zero result
lets `open()` proceed to the transport-open call. -/
theorem c5_pre_request_gate_nonzero (env : Env) (http : http_stream_t)
    (el : audio_element_t) (u : String) (hnd : Nat)
    (hu : el.uri = some u) (hopen : http.is_open = false)
    (hinit : env.init_handle = some hnd) :
    (dispatch_hook http http_stream_event_id_t.HTTP_STREAM_PRE_REQUEST 0 ≠ 0 →
      (_http_open env http el).ret = ESP_FAIL ∧
      ∀ l : Int, Eff.client_open l ∉ (_http_open env http el).trace) ∧
    (dispatch_hook http http_stream_event_id_t.HTTP_STREAM_PRE_REQUEST 0 = 0 →
      Eff.client_open (if http.stream_type = audio_stream_type_t.AUDIO_STREAM_WRITER
        then -1 else env.post_len) ∈ (_http_open env http el).trace) := by
  constructor
  · intro hpre
    unfold _http_open
    simp only [hu, hopen, hinit, ESP_OK]
    rw [if_neg (by simp [hopen]), if_pos hpre]
    refine ⟨rfl, ?_⟩
    intro l
    by_cases hb : el.info.byte_pos ≠ 0
    · simp [hb]
    · simp [hb]
  · intro hpre
    unfold _http_open
    simp only [hu, hopen, hinit, ESP_OK]
    rw [if_neg (by simp [hopen])]
    rw [if_neg (by simp [hpre])]
    by_cases hw : http.stream_type = audio_stream_type_t.AUDIO_STREAM_WRITER
    · rw [if_pos hw, if_pos hw]
      by_cases he : env.open_err = ESP_OK
      · simp [he, ESP_OK]
      · simp only [ESP_OK] at he
        simp [he]
    · rw [if_neg hw, if_neg hw]
      by_cases he : env.open_err ≠ ESP_OK
      · simp only [ESP_OK] at he
        simp [he]
      · simp only [ESP_OK] at he
        simp only [he, ite_false, if_neg he]
        by_cases hreq : dispatch_hook http http_stream_event_id_t.HTTP_STREAM_ON_REQUEST env.post_len < 0
        · simp [hreq]
        · simp only [hreq, if_neg hreq]
          by_cases hcond : env.post_len ≠ 0 ∧ env.post_buffer = true ∧
              dispatch_hook http http_stream_event_id_t.HTTP_STREAM_ON_REQUEST env.post_len = 0
          · rw [if_pos hcond]
            by_cases hwr : env.write_ret ≤ 0
            · simp [hwr]
            · rw [if_neg hwr]
              unfold _http_open_finish
              by_cases hp2 : dispatch_hook http http_stream_event_id_t.HTTP_STREAM_POST_REQUEST 0 < 0
              · simp [hp2]
              · simp [hp2]
          · rw [if_neg hcond]
            unfold _http_open_finish
            by_cases hp2 : dispatch_hook http http_stream_event_id_t.HTTP_STREAM_POST_REQUEST 0 < 0
            · simp [hp2]
            · simp [hp2]

/-- Witness for C5's amended theorem: the +1-returning hook trips the gate
on a concrete reader element. -/
theorem c5_witness :
    (_http_open envNeutral httpReaderHookPos elRun).ret = ESP_FAIL ∧
    Eff.client_open 0 ∉ (_http_open envNeutral httpReaderHookPos elRun).trace := by
  have h := (c5_pre_request_gate_nonzero envNeutral httpReaderHookPos elRun
    "http://example.com/a.mp3" 1 rfl rfl rfl).1 (by decide)
  exact ⟨h.1, h.2 0⟩

/-! ### C6 -/

/-- C6: during a reader's `open()` that reaches the header fetch, the
response status code never causes failure: for every status code (the
conclusion quantifies over all of them, including non-2xx codes) `open()`
queries the status, still sets `isOpen`, publishes the updated info record
(total bytes from the header fetch, codec from the observed headers) and
returns success. -/
theorem c6_status_code_never_fails_open (env : Env) (http : http_stream_t)
    (el : audio_element_t) (u : String) (hnd : Nat)
    (hu : el.uri = some u) (hopen : http.is_open = false)
    (hinit : env.init_handle = some hnd)
    (hrole : http.stream_type ≠ audio_stream_type_t.AUDIO_STREAM_WRITER)
    (hpre : dispatch_hook http http_stream_event_id_t.HTTP_STREAM_PRE_REQUEST 0 = 0)
    (herr : env.open_err = ESP_OK)
    (hreq : 0 ≤ dispatch_hook http http_stream_event_id_t.HTTP_STREAM_ON_REQUEST env.post_len)
    (hwrite : env.post_len ≠ 0 → env.post_buffer = true →
      dispatch_hook http http_stream_event_id_t.HTTP_STREAM_ON_REQUEST env.post_len = 0 →
      0 < env.write_ret)
    (hpost : 0 ≤ dispatch_hook http http_stream_event_id_t.HTTP_STREAM_POST_REQUEST 0) :
    ∀ sc : Int,
      (_http_open { env with status_code := sc } http el).ret = ESP_OK ∧
      (_http_open { env with status_code := sc } http el).http.is_open = true ∧
      (_http_open { env with status_code := sc } http el).el.info =
        { process_http_events el.info env.http_events with
            total_bytes := env.fetch_headers_ret } ∧
      Eff.get_status sc ∈ (_http_open { env with status_code := sc } http el).trace ∧
      Eff.setinfo ∈ (_http_open { env with status_code := sc } http el).trace := by
  intro sc
  unfold _http_open
  simp only [hu, hopen, hinit, ESP_OK]
  rw [if_neg (by simp [hopen])]
  rw [if_neg (by simp [hpre])]
  rw [if_neg hrole]
  simp only [ESP_OK] at herr
  rw [if_neg (by simp [herr])]
  rw [if_neg (by omega)]
  by_cases hcond : env.post_len ≠ 0 ∧ env.post_buffer = true ∧
      dispatch_hook http http_stream_event_id_t.HTTP_STREAM_ON_REQUEST env.post_len = 0
  · rw [if_pos hcond]
    have hw := hwrite hcond.1 hcond.2.1 hcond.2.2
    rw [if_neg (by omega)]
    unfold _http_open_finish
    rw [if_neg (by omega)]
    refine ⟨rfl, rfl, rfl, ?_, ?_⟩ <;>
      (by_cases hb : el.info.byte_pos ≠ 0 <;> simp [hb])
  · rw [if_neg hcond]
    unfold _http_open_finish
    rw [if_neg (by omega)]
    refine ⟨rfl, rfl, rfl, ?_, ?_⟩ <;>
      (by_cases hb : el.info.byte_pos ≠ 0 <;> simp [hb])

/-- Witness for C6 at status code 404: the hookless reader still opens
successfully and publishes the MP3 classification of the delivered
`Content-Type: audio/mpeg` header. -/
theorem c6_witness :
    (_http_open { envNeutral with status_code := 404 } httpReaderNoHook elRun).ret = ESP_OK ∧
    (_http_open { envNeutral with status_code := 404 } httpReaderNoHook elRun).http.is_open = true ∧
    (_http_open { envNeutral with status_code := 404 } httpReaderNoHook elRun).el.info =
      { process_http_events elRun.info envNeutral.http_events with
          total_bytes := envNeutral.fetch_headers_ret } ∧
    Eff.get_status 404 ∈ (_http_open { envNeutral with status_code := 404 } httpReaderNoHook elRun).trace ∧
    Eff.setinfo ∈ (_http_open { envNeutral with status_code := 404 } httpReaderNoHook elRun).trace :=
  c6_status_code_never_fails_open envNeutral httpReaderNoHook elRun
    "http://example.com/a.mp3" 1 rfl rfl rfl (by decide) rfl rfl (by decide)
    (by decide) (by decide) 404

/-! ### C7 -/

/-- C7: `open()` on an element that is already open, or whose URI is unset,
fails with `ESP_FAIL` and mutates nothing: the element record (including
the transport handle), the info record and the element state are returned
unchanged, and no transport call is made. -/
theorem c7_open_rejected_no_mutation (env : Env) (http : http_stream_t)
    (el : audio_element_t) (h : http.is_open = true ∨ el.uri = none) :
    (_http_open env http el).ret = ESP_FAIL ∧
    (_http_open env http el).http = http ∧
    (_http_open env http el).el = el ∧
    (_http_open env http el).trace = [] := by
  unfold _http_open
  rcases h with h | h
  · cases hu : el.uri with
    | none => simp [hu]
    | some u => simp [hu, h]
  · simp [h]

/-- Witness for C7 at an already-open reader. -/
theorem c7_witness :
    (_http_open envNeutral httpOpenReader elMid).ret = ESP_FAIL ∧
    (_http_open envNeutral httpOpenReader elMid).http = httpOpenReader ∧
    (_http_open envNeutral httpOpenReader elMid).el = elMid ∧
    (_http_open envNeutral httpOpenReader elMid).trace = [] :=
  c7_open_rejected_no_mutation envNeutral httpOpenReader elMid (Or.inl rfl)

/-! ### C8 -/

/-- C8: whenever `read()` returns K > 0 — whether K came from the
`OnResponse` hook or from the transport read — `bytePos` advances by
exactly K and the updated info record is published; whenever it returns
K ≤ 0 the element is returned unchanged and nothing is published. -/
theorem c8_read_byte_pos_advance (env : Env) (http : http_stream_t)
    (el : audio_element_t) (len : Int) :
    ((_http_read env http el len).ret > 0 →
      (_http_read env http el len).el.info.byte_pos =
        el.info.byte_pos + (_http_read env http el len).ret ∧
      (_http_read env http el len).el.info.total_bytes = el.info.total_bytes ∧
      (_http_read env http el len).el.info.codec_fmt = el.info.codec_fmt ∧
      Eff.setinfo ∈ (_http_read env http el len).trace) ∧
    ((_http_read env http el len).ret ≤ 0 →
      (_http_read env http el len).el = el ∧
      Eff.setinfo ∉ (_http_read env http el len).trace) := by
  unfold _http_read
  by_cases h0 : dispatch_hook http http_stream_event_id_t.HTTP_STREAM_ON_RESPONSE len = 0
  · simp only [h0, if_pos rfl, ite_true]
    by_cases hr : env.read_ret ≤ 0
    · rw [if_pos hr]
      constructor
      · intro h; simp only [] at h; omega
      · intro h; simp
    · rw [if_neg hr]
      constructor
      · intro h; simp
      · intro h; simp only [] at h; omega
  · simp only [h0, ite_false, if_neg h0]
    by_cases hr : dispatch_hook http http_stream_event_id_t.HTTP_STREAM_ON_RESPONSE len ≤ 0
    · rw [if_pos hr]
      constructor
      · intro h; simp only [] at h; omega
      · intro h; simp
    · rw [if_neg hr]
      constructor
      · intro h; simp
      · intro h; simp only [] at h; omega

/-- Witness for C8: the hookless reader reads 7 bytes from position 5. -/
theorem c8_witness :
    (_http_read envNeutral httpReaderNoHook elMid 10).el.info.byte_pos =
      elMid.info.byte_pos + (_http_read envNeutral httpReaderNoHook elMid 10).ret ∧
    Eff.setinfo ∈ (_http_read envNeutral httpReaderNoHook elMid 10).trace := by
  have h := (c8_read_byte_pos_advance envNeutral httpReaderNoHook elMid 10).1 (by decide)
  exact ⟨h.1, h.2.2.2⟩

/-! ### C9 -/

/-- C9: `close()` on an open element resets `bytePos` to 0 when the
element's externally visible state is not paused, and preserves `bytePos`
unchanged when the state is paused. -/
theorem c9_close_byte_pos_pause (env : Env) (http : http_stream_t)
    (el : audio_element_t) (ho : http.is_open = true) :
    (el.state ≠ ael_state_t.AEL_STATE_PAUSED →
      (_http_close env http el).el.info.byte_pos = 0) ∧
    (el.state = ael_state_t.AEL_STATE_PAUSED →
      (_http_close env http el).el.info.byte_pos = el.info.byte_pos) := by
  constructor <;> intro hs <;> unfold _http_close
  · rw [if_pos hs]
  · rw [if_neg (by simp [hs])]

/-- Witness for C9: closing an open, running (not paused) reader at byte
position 5 resets the position to 0. -/
theorem c9_witness :
    (_http_close envNeutral httpOpenReader elMid).el.info.byte_pos = 0 :=
  (c9_close_byte_pos_pause envNeutral httpOpenReader elMid rfl).1 (by decide)

/-! ### C10 -/

/-- C10: `close()` never reports failure: for every starting element state,
role and hook behaviour (including hooks that return negative results from
`PostRequest` or `FinishRequest` during a writer's close), it returns
`ESP_OK`, and afterwards `isOpen` is false. -/
theorem c10_close_always_ok (env : Env) (http : http_stream_t)
    (el : audio_element_t) :
    (_http_close env http el).ret = ESP_OK ∧
    (_http_close env http el).http.is_open = false := by
  constructor
  · unfold _http_close
    repeat' split
    all_goals rfl
  · unfold _http_close
    repeat' split
    all_goals simp_all
    all_goals repeat' split
    all_goals rfl
